import Mathlib

/-!
Verification development for the rg3d rendering pipeline core.

This file gives a shallow embedding of the parts of the renderer that the
checked properties talk about:

* the point-light cube-map shadow pass (`src/renderer/shadow/point.rs`),
* the HDR luminance / adaptation / tone-map pipeline (`src/renderer/hdr/mod.rs`),
* the UI compositor (`src/renderer/ui_renderer.rs`),
* GPU program construction (`src/renderer/framework/gpu_program.rs`),
* the rigid-body type descriptor (`src/scene/physics/desc.rs`).

Machine floats that only ever hold small exact values (axis vectors, scissor
coordinates) are embedded as `Int`/`ℚ`; GPU-side effects are embedded as
explicit data (lists of draw records, pipeline-state records threaded through
the command loop); fallible construction is embedded with `Except`.
-/

/-! ## Point-light shadow renderer (`src/renderer/shadow/point.rs`) -/

/-- Integer 3-vectors.  The cube-face basis vectors in the source are `f32`
vectors whose components are exactly 0.0, 1.0 or -1.0, so `Int` components
embed them exactly. -/
structure Vec3 where
  x : Int
  y : Int
  z : Int
deriving DecidableEq, Repr

/-- Euclidean dot product of two integer 3-vectors. -/
def dot3 (a b : Vec3) : Int :=
  a.x * b.x + a.y * b.y + a.z * b.z

/-- The six cube-map faces (`CubeMapFace` in `gpu_texture.rs`). -/
inductive CubeMapFace
  | PositiveX
  | NegativeX
  | PositiveY
  | NegativeY
  | PositiveZ
  | NegativeZ
deriving DecidableEq, Repr

/-- One entry of `PointShadowMapRenderer::faces`: a cube face together with
its look and up vectors. -/
structure PointShadowCubeMapFace where
  face : CubeMapFace
  look : Vec3
  up : Vec3
deriving DecidableEq, Repr

/-- The `faces` array built in `PointShadowMapRenderer::new`
(`point.rs`, lines 136-167), component for component. -/
def faces : List PointShadowCubeMapFace :=
  [ { face := CubeMapFace.PositiveX
    , look := { x := 1, y := 0, z := 0 }
    , up := { x := 0, y := -1, z := 0 } }
  , { face := CubeMapFace.NegativeX
    , look := { x := -1, y := 0, z := 0 }
    , up := { x := 0, y := -1, z := 0 } }
  , { face := CubeMapFace.PositiveY
    , look := { x := 0, y := 1, z := 0 }
    , up := { x := 0, y := 0, z := 1 } }
  , { face := CubeMapFace.NegativeY
    , look := { x := 0, y := -1, z := 0 }
    , up := { x := 0, y := 0, z := -1 } }
  , { face := CubeMapFace.PositiveZ
    , look := { x := 0, y := 0, z := 1 }
    , up := { x := 0, y := -1, z := 0 } }
  , { face := CubeMapFace.NegativeZ
    , look := { x := 0, y := 0, z := -1 }
    , up := { x := 0, y := -1, z := 0 } } ]

/-- Scene nodes, restricted to what the shadow pass inspects
(`point.rs`, lines 241-253): the node's `global_visibility()`, and for mesh
nodes the `cast_shadows()` flag and the per-face frustum intersection test
`is_intersect_frustum` (the mesh geometry itself lives outside this core, so
the test is embedded as its boolean outcome per cube face). -/
inductive Node
  | Mesh (globalVisibility : Bool) (castShadows : Bool)
      (intersectsFrustum : CubeMapFace → Bool)
  | Terrain (globalVisibility : Bool)
  | Other (globalVisibility : Bool)

/-- The node-level "casts shadows" flag, where it exists: only mesh nodes
carry one in the shadow pass's match. -/
def castsShadowsFlag : Node → Option Bool
  | Node.Mesh _ cs _ => some cs
  | Node.Terrain _ => none
  | Node.Other _ => none

/-- One instance of a batch (`SurfaceInstance`): only the owning node handle
matters to the shadow pass's submission decision. -/
structure Instance where
  owner : Nat
deriving DecidableEq, Repr

/-- A render batch: the keys of the material's resolved shader set
(`shader_set.map`), or `none` when `shader_cache.get` fails to resolve the
material's shader, plus the instance list. -/
structure Batch where
  shaderSet : Option (List String)
  instances : List Instance

/-- The name of the shadow-pass shader variant looked up by the pass. -/
def shaderPointShadow : String := "PointShadow"

/-- Graph lookup `graph[handle]`.  Out-of-range handles resolve to an
invisible placeholder node, which never draws. -/
def nodeAt (graph : List Node) (handle : Nat) : Node :=
  (graph.get? handle).getD (Node.Other false)

/-- The visibility test of `PointShadowMapRenderer::render`
(`point.rs`, lines 241-253): `node.global_visibility()` and then a match on
the node kind — meshes additionally require `cast_shadows()` and the frustum
intersection for the current face, terrains are always treated as casters
(issue 117 workaround), all other nodes never cast. -/
def nodeVisibleForShadow (n : Node) (face : CubeMapFace) : Bool :=
  match n with
  | Node.Mesh gv cs int => gv && (cs && int face)
  | Node.Terrain gv => gv && true
  | Node.Other gv => gv && false

/-- Whether an instance is submitted to a given face's draw pass. -/
def shadowVisible (graph : List Node) (face : CubeMapFace) (inst : Instance) : Bool :=
  nodeVisibleForShadow (nodeAt graph inst.owner) face

/-- One submitted shadow draw call: the face it targets, the index of the
batch it came from, and the owning node of the drawn instance. -/
structure ShadowDraw where
  face : CubeMapFace
  batchIndex : Nat
  owner : Nat
deriving DecidableEq, Repr

/-- Draw calls a single batch submits for a single cube face
(`point.rs`, lines 232-291): nothing unless the shader cache resolved the
material's shader set and the set contains a "PointShadow" variant; otherwise
one draw per instance passing the visibility test. -/
def batchFaceDraws (graph : List Node) (face : CubeMapFace) (bi : Nat)
    (b : Batch) : List ShadowDraw :=
  match b.shaderSet with
  | none => []
  | some keys =>
    if keys.contains shaderPointShadow then
      (b.instances.filter (shadowVisible graph face)).map
        (fun inst => { face := face, batchIndex := bi, owner := inst.owner })
    else []

/-- Iterate the batch storage for one face, keeping batch indices. -/
def faceDrawsAux (graph : List Node) (face : CubeMapFace) :
    Nat → List Batch → List ShadowDraw
  | _, [] => []
  | bi, b :: rest =>
      batchFaceDraws graph face bi b ++ faceDrawsAux graph face (bi + 1) rest

/-- All draw calls submitted by one `PointShadowMapRenderer::render`
invocation: the outer loop over the six faces, the inner loop over batches
and instances. -/
def renderPointShadow (graph : List Node) (batches : List Batch) : List ShadowDraw :=
  (faces.map (fun f => faceDrawsAux graph f.face 0 batches)).flatten

/-- The pass statistics: `framebuffer.draw` contributes one draw call per
submitted instance, so the draw-call count is the length of the draw list. -/
def pointShadowStatistics (graph : List Node) (batches : List Batch) : Nat :=
  (renderPointShadow graph batches).length

/-! ## HDR renderer (`src/renderer/hdr/mod.rs`) -/

/-- A luminance buffer (`LumBuffer::new`): one square color attachment of the
given size. -/
structure LumBufferModel where
  width : Nat
  height : Nat
deriving DecidableEq, Repr

/-- `LumBuffer::new(state, size)` creates a `size × size` rectangle texture. -/
def lumBufferNew (size : Nat) : LumBufferModel :=
  { width := size, height := size }

/-- The size of the `frame_luminance` target (`HighDynamicRangeRenderer::new`,
line 105). -/
def frameLuminanceSize : Nat := 64

/-- The sizes of the `downscale_chain` buffers, in order
(`HighDynamicRangeRenderer::new`, lines 106-113). -/
def downscaleChainSizes : List Nat := [32, 16, 8, 4, 2, 1]

/-- The luminance buffers the renderer constructs: the 64×64 frame-luminance
target followed by the downscale chain. -/
def hdrLumBuffers : List LumBufferModel :=
  lumBufferNew frameLuminanceSize :: downscaleChainSizes.map lumBufferNew

/-- One pass of `calculate_avg_frame_luminance`: renders into the buffer of
size `dst`, sampling the buffer of size `src`. -/
structure DownscalePass where
  src : Nat
  dst : Nat
deriving DecidableEq, Repr

/-- The loop of `calculate_avg_frame_luminance` (lines 174-210):
`prev_luminance` starts at the frame-luminance texture and after each pass
becomes the buffer just written, so every pass samples the immediately
preceding buffer. -/
def downscalePassesAux : Nat → List Nat → List DownscalePass
  | _, [] => []
  | prev, sz :: rest => { src := prev, dst := sz } :: downscalePassesAux sz rest

/-- All downscale passes of one frame. -/
def downscalePasses : List DownscalePass :=
  downscalePassesAux frameLuminanceSize downscaleChainSizes

/-- The size of the buffer the adaptation stage reads its new luminance from:
`self.downscale_chain.last().unwrap()` (line 218). -/
def adaptationNewLumSize : Nat :=
  downscaleChainSizes.getLastD frameLuminanceSize

/-- The four stages of `HighDynamicRangeRenderer::render`, with the
downscale chain expanded pass by pass. -/
inductive HdrStage
  | computeFrameLuminance
  | downscale (pass : DownscalePass)
  | adapt (newLumSize : Nat)
  | toneMap
deriving DecidableEq, Repr

/-- The stage sequence executed by `HighDynamicRangeRenderer::render`
(lines 318-349): `calculate_frame_luminance`, then
`calculate_avg_frame_luminance` (the downscale passes), then `adaptation`
(fed by the terminal chain buffer), then `map_hdr_to_ldr`. -/
def hdrRenderStages : List HdrStage :=
  HdrStage.computeFrameLuminance ::
    (downscalePasses.map HdrStage.downscale
      ++ [HdrStage.adapt adaptationNewLumSize, HdrStage.toneMap])

/-- The sampler bindings of `map_hdr_to_ldr` that the color-grading logic
decides (lines 266-294): which texture id ends up bound to the color-map
sampler and the value of the `use_color_grading` shader flag. -/
structure LdrGradingBindings where
  colorMap : Nat
  useColorGrading : Bool
deriving DecidableEq, Repr

/-- The color-grading part of `HighDynamicRangeRenderer::map_hdr_to_ldr`:
texture ids stand for GPU textures, `stubLut` is the renderer's 1×1×1 stub
LUT, `colorGradingLut` is the optional LUT argument and `textureCacheGet` the
cache resolution it goes through.  Mirrors

    let color_grading_lut_tex = color_grading_lut
        .and_then(|l| texture_cache.get(state, l.lut_ref()))
        .unwrap_or_else(|| self.stub_lut.clone());
    ... .set_bool(&shader.use_color_grading,
                  use_color_grading && color_grading_lut.is_some()) -/
def mapHdrToLdrGrading (stubLut : Nat) (colorGradingLut : Option Nat)
    (textureCacheGet : Nat → Option Nat) (useColorGrading : Bool) :
    LdrGradingBindings :=
  { colorMap := ((colorGradingLut.bind textureCacheGet).getD stubLut)
  , useColorGrading := useColorGrading && colorGradingLut.isSome }

/-- Modelled from the spec: the blend performed by the adaptation shader.
The fragment shader (`hdr_adaptation_fs.glsl`) and the `AdaptationShader`
wrapper are not part of this core's sources; the Rust side only feeds it the
previous adapted luminance, the instant luminance and
`speed = 0.3 * dt` (hdr/mod.rs line 243).  The spec describes the stage as
"blend previous-frame adapted luminance toward the instant value using an
exponential approach with rate k·dt", i.e. one Euler step
`P + (L - P) · speed` of the exponential approach.  Valid inputs have
`0 < speed < 1` (the frame delta `dt` is a fraction of a second). -/
def adaptStep (p l speed : ℚ) : ℚ :=
  p + (l - p) * speed

/-- Iterating the adaptation step over frames with the instant luminance `l`
and the rate `speed` held fixed, from initial adapted value `p`. -/
def adaptIter (p l speed : ℚ) : Nat → ℚ
  | 0 => p
  | n + 1 => adaptStep (adaptIter p l speed n) l speed

/-! ## UI compositor (`src/renderer/ui_renderer.rs`) -/

/-- A rectangle with rational coordinates, embedding the `f32`
`Rect` used for command clip bounds (`cmd.clip_bounds`). -/
structure RectQ where
  posX : ℚ
  posY : ℚ
  sizeX : ℚ
  sizeY : ℚ
deriving DecidableEq, Repr

/-- Rust's `as i32` cast on an `f32`: truncation toward zero. -/
def truncQ (q : ℚ) : Int :=
  if 0 ≤ q then ⌊q⌋ else ⌈q⌉

/-- An integer scissor box (`x`, `y`, `w`, `h`) as passed to
`state.set_scissor_box`. -/
structure ScissorBox where
  x : Int
  y : Int
  w : Int
  h : Int
deriving DecidableEq, Repr

/-- The scissor computation of `UiRenderer::render` (lines 183-195),
step for step: the clip bounds' position components are floored and its size
components ceiled (still as floats), then the box is built with `as i32`
casts, with the device Y coordinate flipped to the bottom-left-origin
convention as `viewport.size.y - (position.y + size.y) as i32`. -/
def uiScissorBox (viewportHeight : Int) (clipBounds : RectQ) : ScissorBox :=
  let cb : RectQ :=
    { posX := (⌊clipBounds.posX⌋ : Int)
    , posY := (⌊clipBounds.posY⌋ : Int)
    , sizeX := (⌈clipBounds.sizeX⌉ : Int)
    , sizeY := (⌈clipBounds.sizeY⌉ : Int) }
  { x := truncQ cb.posX
  , y := viewportHeight - truncQ (cb.posY + cb.sizeY)
  , w := truncQ cb.sizeX
  , h := truncQ cb.sizeY }

/-- Written from the spec sentence for the scissor rectangle: floor the
position, ceil the size, and flip Y as height minus (floored y plus ceiled
height).  Compared against `uiScissorBox` (the code) in the theorem. -/
def uiScissorBoxSpec (viewportHeight : Int) (clipBounds : RectQ) : ScissorBox :=
  { x := ⌊clipBounds.posX⌋
  , y := viewportHeight - (⌊clipBounds.posY⌋ + ⌈clipBounds.sizeY⌉)
  , w := ⌈clipBounds.sizeX⌉
  , h := ⌈clipBounds.sizeY⌉ }

/-- OpenGL constants used by the UI pass's stencil configuration. -/
def glINCR : Nat := 0x1E02

/-- OpenGL `ALWAYS` stencil function. -/
def glALWAYS : Nat := 0x0207

/-- OpenGL `EQUAL` stencil function. -/
def glEQUAL : Nat := 0x0202

/-- Explicit clip geometry carried by a draw command
(`cmd.clipping_geometry`); only its triangle count matters here. -/
structure ClippingGeometry where
  triangleCount : Nat
deriving DecidableEq, Repr

/-- A UI draw command, restricted to the fields the compositor's control flow
reads: clip bounds, optional clip geometry, and the command's triangle range
(`cmd.triangles.start`, `cmd.triangles.end`). -/
structure UiCommand where
  clipBounds : RectQ
  clippingGeometry : Option ClippingGeometry
  triangleStart : Nat
  triangleEnd : Nat
deriving DecidableEq, Repr

/-- The slice of the mutable `PipelineState` that the UI pass writes:
the stencil zpass operation, the stencil function and reference value, the
stencil write mask and the scissor box.  The stencil-function record's
untracked fields and the initial values are irrelevant to the pass (every
value read below was first written by it or is universally quantified). -/
structure UiPipeState where
  zpass : Nat
  func : Nat
  refValue : Nat
  mask : Nat
  scissor : ScissorBox
deriving DecidableEq, Repr

/-- One draw call issued by the UI pass, with its `DrawParameters` and the
pipeline stencil state current at the moment of the draw. -/
structure UiDraw where
  isClipGeometry : Bool
  colorWrite : Bool
  stencilTest : Bool
  stateZPass : Nat
  stateFunc : Nat
  stateRef : Nat
  stateMask : Nat
  scissor : ScissorBox
  triangleStart : Nat
  triangleCount : Nat
deriving DecidableEq, Repr

/-- Processing of one command in `UiRenderer::render`'s loop
(lines 179-390).  `defaultRef` is the `ref_value` the missing
`StencilFunc::default()` supplies in `StencilFunc { func: ALWAYS, ..Default::default() }`;
the claims do not depend on it.  With clip geometry: the stencil op is set to
increment on zpass, the func to ALWAYS, the write mask to 0xFF, the clip
geometry is drawn with all color writes masked off, then the func is set to
EQUAL with reference 1 and the write mask to 0, and `stencil_test` is turned
on for the main draw.  Without clip geometry the single main draw keeps
`stencil_test = false`. -/
def processCommand (defaultRef : Nat) (viewportHeight : Int)
    (s : UiPipeState) (cmd : UiCommand) : UiPipeState × List UiDraw :=
  let s0 : UiPipeState :=
    { s with scissor := uiScissorBox viewportHeight cmd.clipBounds }
  match cmd.clippingGeometry with
  | some cg =>
      let s1 : UiPipeState :=
        { s0 with
          zpass := glINCR
          func := glALWAYS
          refValue := defaultRef
          mask := 0xFF }
      let clipDraw : UiDraw :=
        { isClipGeometry := true
          colorWrite := false
          stencilTest := false
          stateZPass := s1.zpass
          stateFunc := s1.func
          stateRef := s1.refValue
          stateMask := s1.mask
          scissor := s1.scissor
          triangleStart := 0
          triangleCount := cg.triangleCount }
      let s2 : UiPipeState :=
        { s1 with
          func := glEQUAL
          refValue := 1
          mask := 0 }
      let mainDraw : UiDraw :=
        { isClipGeometry := false
          colorWrite := true
          stencilTest := true
          stateZPass := s2.zpass
          stateFunc := s2.func
          stateRef := s2.refValue
          stateMask := s2.mask
          scissor := s2.scissor
          triangleStart := cmd.triangleStart
          triangleCount := cmd.triangleEnd - cmd.triangleStart }
      (s2, [clipDraw, mainDraw])
  | none =>
      let mainDraw : UiDraw :=
        { isClipGeometry := false
          colorWrite := true
          stencilTest := false
          stateZPass := s0.zpass
          stateFunc := s0.func
          stateRef := s0.refValue
          stateMask := s0.mask
          scissor := s0.scissor
          triangleStart := cmd.triangleStart
          triangleCount := cmd.triangleEnd - cmd.triangleStart }
      (s0, [mainDraw])

/-- The command loop of `UiRenderer::render`: the pipeline state threads
through the commands (stencil state written for one command persists into the
next); the result lists, per command, the draws issued for it. -/
def uiRender (defaultRef : Nat) (viewportHeight : Int) :
    UiPipeState → List UiCommand → List (List UiDraw)
  | _, [] => []
  | s, cmd :: rest =>
      let p := processCommand defaultRef viewportHeight s cmd
      p.2 :: uiRender defaultRef viewportHeight p.1 rest

/-- Written from the spec's description of per-command draws: a command
without clip geometry yields exactly one draw, with the stencil test
disabled, covering the command's triangle range; a command with clip geometry
yields exactly two draws — first the clip geometry with all color writes
disabled and a stencil-increment operation, then the command's triangle range
with the stencil test enabled, the stencil function passing only where the
stencil equals 1, and stencil writes masked off. -/
def uiCommandDrawsSpec (cmd : UiCommand) (draws : List UiDraw) : Bool :=
  match cmd.clippingGeometry, draws with
  | none, [d] =>
      d.stencilTest == false
        && d.colorWrite == true
        && d.triangleStart == cmd.triangleStart
        && d.triangleCount == (cmd.triangleEnd - cmd.triangleStart)
  | some _, [d1, d2] =>
      d1.isClipGeometry == true
        && d1.colorWrite == false
        && d1.stateZPass == glINCR
        && d2.stencilTest == true
        && d2.stateFunc == glEQUAL
        && d2.stateRef == 1
        && d2.stateMask == 0
        && d2.colorWrite == true
        && d2.triangleStart == cmd.triangleStart
        && d2.triangleCount == (cmd.triangleEnd - cmd.triangleStart)
  | _, _ => false

/-! ## GPU program construction (`src/renderer/framework/gpu_program.rs`) -/

/-- The error variants `GpuProgram::from_source` can produce
(`FrameworkError` in `framework/error.rs`, which also converts plain device
error strings via `From<String>`, embedded here as `Custom`). -/
inductive FrameworkError
  | ShaderCompilationFailed (shaderName : String) (errorMessage : String)
  | ShaderLinkingFailed (shaderName : String) (errorMessage : String)
  | Custom (message : String)
deriving DecidableEq, Repr

/-- The device's response to compiling one shader: the outcome of
`gl.create_shader` (which can fail with a device error string), the
compile status and the info log. -/
structure GlShaderResponse where
  alloc : Except String Unit
  compileStatus : Bool
  infoLog : String
deriving Repr

/-- The device's response to creating and linking the program object. -/
structure GlProgramResponse where
  alloc : Except String Unit
  linkStatus : Bool
  infoLog : String
deriving Repr

/-- The device responses one `GpuProgram::from_source` call observes. -/
structure GlDevice where
  vertex : GlShaderResponse
  fragment : GlShaderResponse
  program : GlProgramResponse
deriving Repr

/-- `create_shader` (`gpu_program.rs`, lines 27-58): propagate a failed
`gl.create_shader` (the `?`), then compile; on a false compile status return
`ShaderCompilationFailed` carrying the shader's name and the compiler's info
log, otherwise succeed. -/
def create_shader (resp : GlShaderResponse) (name : String) :
    Except FrameworkError Unit :=
  match resp.alloc with
  | Except.error e => Except.error (FrameworkError.Custom e)
  | Except.ok _ =>
      if resp.compileStatus then Except.ok ()
      else Except.error (FrameworkError.ShaderCompilationFailed name resp.infoLog)

/-- A successfully linked program. -/
structure GpuProgram where
  name : String
deriving DecidableEq, Repr

/-- `GpuProgram::from_source` (`gpu_program.rs`, lines 368-417): compile the
vertex shader under the name `<name>_VertexShader`, then the fragment shader
under `<name>_FragmentShader` (each `?`-propagated), create the program
object (`?`-propagated), link, and on a false link status return
`ShaderLinkingFailed` with the program name and the linker's info log. -/
def GpuProgram.from_source (dev : GlDevice) (name : String) :
    Except FrameworkError GpuProgram := do
  let _ ← create_shader dev.vertex (name ++ "_VertexShader")
  let _ ← create_shader dev.fragment (name ++ "_FragmentShader")
  match dev.program.alloc with
  | Except.error e => throw (FrameworkError.Custom e)
  | Except.ok _ =>
      if dev.program.linkStatus then pure { name := name }
      else throw (FrameworkError.ShaderLinkingFailed name dev.program.infoLog)

/-- An owning renderer object whose construction needs the shader: stands for
`UiShader` (`ui_renderer.rs`, lines 53-76), whose `new` builds the program
with `GpuProgram::from_source(state, "UIShader", ...)?` (the subsequent
uniform-location lookups are elided — they only add further error causes). -/
structure UiShader where
  program : GpuProgram
deriving DecidableEq, Repr

/-- `UiShader::new`: the `?` on `GpuProgram::from_source` propagates any
construction error to the caller, so the owning renderer fails to build. -/
def UiShader.new (dev : GlDevice) : Except FrameworkError UiShader := do
  let program ← GpuProgram.from_source dev "UIShader"
  Except.ok { program := program }

/-! ## Rigid body type descriptor (`src/scene/physics/desc.rs`) -/

/-- `RigidBodyTypeDesc` (`desc.rs`, lines 28-36). -/
inductive RigidBodyTypeDesc
  | Dynamic
  | Static
  | KinematicPositionBased
  | KinematicVelocityBased
deriving DecidableEq, Repr

/-- `RigidBodyTypeDesc::id` (`desc.rs`, lines 45-47): the `#[repr(u32)]`
discriminant of the variant. -/
def RigidBodyTypeDesc.id : RigidBodyTypeDesc → Nat
  | RigidBodyTypeDesc.Dynamic => 0
  | RigidBodyTypeDesc.Static => 1
  | RigidBodyTypeDesc.KinematicPositionBased => 2
  | RigidBodyTypeDesc.KinematicVelocityBased => 3

/-- `RigidBodyTypeDesc::from_id` (`desc.rs`, lines 49-57): decode a `u32`
discriminant, rejecting everything above 3 with a message naming the id. -/
def RigidBodyTypeDesc.from_id (id : Nat) : Except String RigidBodyTypeDesc :=
  match id with
  | 0 => Except.ok RigidBodyTypeDesc.Dynamic
  | 1 => Except.ok RigidBodyTypeDesc.Static
  | 2 => Except.ok RigidBodyTypeDesc.KinematicPositionBased
  | 3 => Except.ok RigidBodyTypeDesc.KinematicVelocityBased
  | _ => Except.error ("Invalid body status id " ++ toString id ++ "!")

/-! ## Theorems -/

/-- C6: For each of the 6 cube-map faces of the point shadow renderer, the
face's look vector and up vector are each unit length and mutually orthogonal
(dot product zero), for all 6 (look, up) pairs. -/
theorem point_shadow_faces_orthonormal :
    (faces.all fun f =>
      dot3 f.look f.up == 0 && dot3 f.look f.look == 1 && dot3 f.up f.up == 1)
      = true := by
  decide

/-- C4: Every `HighDynamicRangeRenderer::render` call executes exactly the
stages ComputeFrameLuminance, DownscaleChain, Adapt, ToneMap in that fixed
order; the luminance chain consists of square buffers of sizes 64, 32, 16, 8,
4, 2, 1; each downscale pass samples the immediately preceding buffer; and
the terminal 1×1 buffer feeds the adaptation stage. -/
theorem hdr_render_stage_structure :
    hdrRenderStages =
      [HdrStage.computeFrameLuminance,
       HdrStage.downscale { src := 64, dst := 32 },
       HdrStage.downscale { src := 32, dst := 16 },
       HdrStage.downscale { src := 16, dst := 8 },
       HdrStage.downscale { src := 8, dst := 4 },
       HdrStage.downscale { src := 4, dst := 2 },
       HdrStage.downscale { src := 2, dst := 1 },
       HdrStage.adapt 1,
       HdrStage.toneMap] ∧
    hdrLumBuffers.map LumBufferModel.width = [64, 32, 16, 8, 4, 2, 1] ∧
    (hdrLumBuffers.all fun b => b.width == b.height) = true ∧
    adaptationNewLumSize = 1 := by
  refine ⟨by decide, by decide, by decide, by decide⟩

/-- C10: `RigidBodyTypeDesc::from_id` is a left inverse of
`RigidBodyTypeDesc::id`: for every variant `d`, `from_id (id d) = Ok d`, and
for every id greater than 3, `from_id` returns an `Err`. -/
theorem rigid_body_type_desc_id_roundtrip :
    (∀ d : RigidBodyTypeDesc,
        RigidBodyTypeDesc.from_id (RigidBodyTypeDesc.id d) = Except.ok d) ∧
    (∀ n : Nat, 3 < n → (RigidBodyTypeDesc.from_id n).isOk = false) := by
  constructor
  · intro d
    cases d <;> rfl
  · intro n hn
    obtain ⟨m, rfl⟩ : ∃ m, n = m + 4 := ⟨n - 4, by omega⟩
    rfl

/-- Witness for C10 at the `Dynamic` variant and the out-of-range id 4. -/
theorem rigid_body_type_desc_id_roundtrip_witness :
    RigidBodyTypeDesc.from_id (RigidBodyTypeDesc.id RigidBodyTypeDesc.Dynamic)
        = Except.ok RigidBodyTypeDesc.Dynamic ∧
    (RigidBodyTypeDesc.from_id 4).isOk = false :=
  ⟨rigid_body_type_desc_id_roundtrip.1 RigidBodyTypeDesc.Dynamic,
   rigid_body_type_desc_id_roundtrip.2 4 (by decide)⟩

/-- Rust's `as i32` on a float that already holds an integer value returns
that integer. -/
theorem truncQ_intCast (n : Int) : truncQ (n : ℚ) = n := by
  unfold truncQ
  split <;> simp

/-- C7: The scissor rectangle computed by `UiRenderer::render` for a command
floors the clip bounds' position components, ceils its size components, and
flips the device Y coordinate to viewport height minus (floored y position
plus ceiled height). -/
theorem ui_scissor_box_floor_ceil_flip (viewportHeight : Int) (clipBounds : RectQ) :
    uiScissorBox viewportHeight clipBounds
      = uiScissorBoxSpec viewportHeight clipBounds := by
  have hadd : truncQ ((⌊clipBounds.posY⌋ : ℚ) + (⌈clipBounds.sizeY⌉ : ℚ))
      = ⌊clipBounds.posY⌋ + ⌈clipBounds.sizeY⌉ := by
    rw [← Int.cast_add, truncQ_intCast]
  unfold uiScissorBox uiScissorBoxSpec
  simp only [truncQ_intCast, hadd]

/-- C2 counterexample: with a LUT argument supplied, a texture cache that
fails to resolve it, and color grading enabled, `map_hdr_to_ldr` binds the
stub texture to the color-map sampler (so no LUT is bound in the claim's
sense) yet still sets the `use_color_grading` shader flag, because the code
computes the flag from `color_grading_lut.is_some()` alone. -/
theorem hdr_color_grading_flag_counterexample :
    (mapHdrToLdrGrading 0 (some 5) (fun _ => none) true).colorMap = 0 ∧
    (mapHdrToLdrGrading 0 (some 5) (fun _ => none) true).useColorGrading = true :=
  ⟨rfl, rfl⟩

/-- C2 (amended): whenever the LUT argument is `None` or the texture cache
fails to resolve it, the pass binds the renderer's stub texture to the
color-map sampler; and the `use_color_grading` shader flag equals
"color grading enabled AND the LUT argument is present" — it does not depend
on whether cache resolution succeeded. -/
theorem hdr_color_grading_fallback (stubLut : Nat) (colorGradingLut : Option Nat)
    (textureCacheGet : Nat → Option Nat) (useColorGrading : Bool) :
    (colorGradingLut.bind textureCacheGet = none →
      (mapHdrToLdrGrading stubLut colorGradingLut textureCacheGet
        useColorGrading).colorMap = stubLut) ∧
    (mapHdrToLdrGrading stubLut colorGradingLut textureCacheGet
        useColorGrading).useColorGrading
      = (useColorGrading && colorGradingLut.isSome) := by
  constructor
  · intro h
    simp [mapHdrToLdrGrading, h]
  · rfl

/-- Witness for C2's amended theorem: no LUT argument, failing cache, grading
flag requested — the stub is bound and the flag stays off. -/
theorem hdr_color_grading_fallback_witness :
    (mapHdrToLdrGrading 7 none (fun _ => none) true).colorMap = 7 ∧
    (mapHdrToLdrGrading 7 none (fun _ => none) true).useColorGrading
      = (true && (none : Option Nat).isSome) :=
  ⟨(hdr_color_grading_fallback 7 none (fun _ => none) true).1 rfl,
   (hdr_color_grading_fallback 7 none (fun _ => none) true).2⟩

/-- One adaptation step moves the distance to the target by the factor
`1 - speed`. -/
theorem adaptStep_sub (a l s : ℚ) : adaptStep a l s - l = (a - l) * (1 - s) := by
  unfold adaptStep
  ring

/-- Closed form of the distance to the target after `n` frames. -/
theorem adaptIter_sub (p l s : ℚ) (n : Nat) :
    adaptIter p l s n - l = (p - l) * (1 - s) ^ n := by
  induction n with
  | zero => simp [adaptIter]
  | succ n ih =>
      show adaptStep (adaptIter p l s n) l s - l = _
      rw [adaptStep_sub, ih]
      ring

/-- C3: For valid inputs (`0 < speed < 1`) and previous value `P ≠ L`, the
adaptation step's output lies strictly between `P` and `L`; and with `L` and
`dt` held fixed across frames, the adapted value converges to `L`: for every
tolerance there is a frame count after which the value stays within it. -/
theorem hdr_adaptation_monotone_convergent (p l s : ℚ)
    (hs0 : 0 < s) (hs1 : s < 1) (hne : l ≠ p) :
    ((p < l → p < adaptStep p l s ∧ adaptStep p l s < l) ∧
     (l < p → l < adaptStep p l s ∧ adaptStep p l s < p)) ∧
    (∀ ε : ℚ, 0 < ε → ∃ N : Nat, ∀ n : Nat, N ≤ n →
        |adaptIter p l s n - l| < ε) := by
  constructor
  · constructor
    · intro hpl
      unfold adaptStep
      constructor
      · nlinarith
      · nlinarith
    · intro hlp
      unfold adaptStep
      constructor
      · nlinarith
      · nlinarith
  · intro ε hε
    have habs : 0 < |p - l| := abs_pos.mpr (sub_ne_zero.mpr (Ne.symm hne))
    have hr0 : (0 : ℚ) ≤ 1 - s := by linarith
    have hr1 : (1 : ℚ) - s < 1 := by linarith
    obtain ⟨N, hN⟩ := exists_pow_lt_of_lt_one (div_pos hε habs) hr1
    refine ⟨N, fun n hn => ?_⟩
    have h1 : |adaptIter p l s n - l| = |p - l| * (1 - s) ^ n := by
      rw [adaptIter_sub, abs_mul, abs_pow, abs_of_nonneg hr0]
    have h2 : (1 - s) ^ n ≤ (1 - s) ^ N :=
      pow_le_pow_of_le_one hr0 (le_of_lt hr1) hn
    calc |adaptIter p l s n - l| = |p - l| * (1 - s) ^ n := h1
      _ ≤ |p - l| * (1 - s) ^ N := by
          exact mul_le_mul_of_nonneg_left h2 (le_of_lt habs)
      _ < |p - l| * (ε / |p - l|) := mul_lt_mul_of_pos_left hN habs
      _ = ε := by field_simp

/-- Witness for C3 at `P = 0`, `L = 1`, `speed = 1/2`: the step's output lies
strictly between the previous value and the target. -/
theorem hdr_adaptation_monotone_convergent_witness :
    (0 : ℚ) < adaptStep 0 1 (1 / 2) ∧ adaptStep 0 1 (1 / 2) < 1 :=
  (hdr_adaptation_monotone_convergent 0 1 (1 / 2) (by norm_num) (by norm_num)
      (by norm_num)).1.1 (by norm_num)

/-- Characterisation of a draw submitted by one batch for one face: it
records that batch's index and that face, the batch's shader set resolved and
contains the "PointShadow" variant, and the drawn instance passed the
visibility test. -/
theorem mem_batchFaceDraws {graph : List Node} {face : CubeMapFace} {bi : Nat}
    {b : Batch} {d : ShadowDraw} (h : d ∈ batchFaceDraws graph face bi b) :
    d.batchIndex = bi ∧ d.face = face ∧
      (∃ keys, b.shaderSet = some keys ∧ keys.contains shaderPointShadow = true) ∧
      ∃ inst ∈ b.instances, shadowVisible graph face inst = true ∧
        d.owner = inst.owner := by
  rcases b with ⟨ss, insts⟩
  cases ss with
  | none => simp [batchFaceDraws] at h
  | some keys =>
      cases hc : keys.contains shaderPointShadow with
      | true =>
          simp only [batchFaceDraws, hc, if_true, List.mem_map, List.mem_filter] at h
          obtain ⟨inst, ⟨hmem, hvis⟩, rfl⟩ := h
          exact ⟨rfl, rfl, ⟨keys, rfl, hc⟩, inst, hmem, hvis, rfl⟩
      | false =>
          simp only [batchFaceDraws, hc] at h
          rw [if_neg (by simp)] at h
          exact absurd h (List.not_mem_nil d)

/-- A draw in the per-face batch loop comes from some batch, at the batch's
position offset by the loop's starting index. -/
theorem mem_faceDrawsAux {graph : List Node} {face : CubeMapFace} {d : ShadowDraw} :
    ∀ (bs : List Batch) (k : Nat), d ∈ faceDrawsAux graph face k bs →
      ∃ j b, bs.get? j = some b ∧ d ∈ batchFaceDraws graph face (k + j) b := by
  intro bs
  induction bs with
  | nil =>
      intro k h
      simp [faceDrawsAux] at h
  | cons b rest ih =>
      intro k h
      unfold faceDrawsAux at h
      rcases List.mem_append.mp h with h1 | h2
      · exact ⟨0, b, rfl, by simpa using h1⟩
      · obtain ⟨j, b', hget, hmem⟩ := ih (k + 1) h2
        refine ⟨j + 1, b', by simpa using hget, ?_⟩
        have he : k + 1 + j = k + (j + 1) := by omega
        rwa [he] at hmem

/-- A draw submitted by the whole pass comes from one of the six faces and
one batch of the storage. -/
theorem mem_renderPointShadow {graph : List Node} {batches : List Batch}
    {d : ShadowDraw} (h : d ∈ renderPointShadow graph batches) :
    ∃ f ∈ faces, ∃ j b, batches.get? j = some b ∧
      d ∈ batchFaceDraws graph f.face j b := by
  unfold renderPointShadow at h
  simp only [List.mem_flatten, List.mem_map] at h
  obtain ⟨_, ⟨f, hf, rfl⟩, hmem⟩ := h
  obtain ⟨j, b, hget, hbm⟩ := mem_faceDrawsAux batches 0 hmem
  exact ⟨f, hf, j, b, hget, by simpa using hbm⟩

/-- C1: In every point-light shadow render invocation (any cascade
parameters, all 6 cube faces), a node whose "casts shadows" flag is false
never contributes a draw call to the pass's statistics; moreover every
submitted draw whose owner is a mesh node passed both the casts-shadows check
and the frustum test for the face it was drawn into. -/
theorem point_shadow_casts_shadows_gate (graph : List Node) (batches : List Batch)
    (i : Nat) (gv : Bool) (int : CubeMapFace → Bool)
    (hmesh : graph.get? i = some (Node.Mesh gv false int)) :
    ((renderPointShadow graph batches).all fun d => d.owner != i) = true ∧
    ∀ d ∈ renderPointShadow graph batches,
      ∀ gv' cs' int', nodeAt graph d.owner = Node.Mesh gv' cs' int' →
        cs' = true ∧ int' d.face = true := by
  have hmain : ∀ d ∈ renderPointShadow graph batches,
      ∀ gv' cs' int', nodeAt graph d.owner = Node.Mesh gv' cs' int' →
        cs' = true ∧ int' d.face = true := by
    intro d hd gv' cs' int' hnode
    obtain ⟨f, hf, j, b, hget, hbm⟩ := mem_renderPointShadow hd
    obtain ⟨hbi, hface, hkeys, inst, hmem, hvis, howner⟩ := mem_batchFaceDraws hbm
    rw [howner] at hnode
    unfold shadowVisible at hvis
    rw [hnode] at hvis
    unfold nodeVisibleForShadow at hvis
    simp only [Bool.and_eq_true] at hvis
    rw [hface]
    exact ⟨hvis.2.1, hvis.2.2⟩
  refine ⟨?_, hmain⟩
  rw [List.all_eq_true]
  intro d hd
  simp only [bne_iff_ne, ne_eq]
  intro hout
  have hnode : nodeAt graph d.owner = Node.Mesh gv false int := by
    rw [hout]
    unfold nodeAt
    rw [hmesh]
    rfl
  exact Bool.false_ne_true (hmain d hd gv false int hnode).1

/-- Witness for C1: a visible mesh with "casts shadows" off, owned by the
only instance of a batch whose material has the "PointShadow" variant,
contributes no draw on any face. -/
theorem point_shadow_casts_shadows_gate_witness :
    ((renderPointShadow [Node.Mesh true false (fun _ => true)]
        [{ shaderSet := some ["PointShadow"], instances := [{ owner := 0 }] }]).all
      fun d => d.owner != 0) = true :=
  (point_shadow_casts_shadows_gate
    [Node.Mesh true false (fun _ => true)]
    [{ shaderSet := some ["PointShadow"], instances := [{ owner := 0 }] }]
    0 true (fun _ => true) rfl).1

/-- C8: A batch whose material's resolved shader set contains no
"PointShadow" variant contributes no draw on any face and nothing to the
pass statistics (the statistics count exactly the draws of the other
batches); `render` is total, so no error is returned for such a batch. -/
theorem point_shadow_missing_variant_skipped (graph : List Node)
    (batches : List Batch) (bi : Nat) (b : Batch) (keys : List String)
    (hget : batches.get? bi = some b)
    (hss : b.shaderSet = some keys)
    (hmiss : keys.contains shaderPointShadow = false) :
    ((renderPointShadow graph batches).all fun d => d.batchIndex != bi) = true ∧
    pointShadowStatistics graph batches =
      ((renderPointShadow graph batches).filter
        (fun d => d.batchIndex != bi)).length := by
  have hall : ∀ d ∈ renderPointShadow graph batches, (d.batchIndex != bi) = true := by
    intro d hd
    simp only [bne_iff_ne, ne_eq]
    intro hout
    obtain ⟨f, hf, j, b', hget', hbm⟩ := mem_renderPointShadow hd
    obtain ⟨hbi, _, ⟨keys', hss', hc'⟩, _⟩ := mem_batchFaceDraws hbm
    rw [hout] at hbi
    rw [← hbi] at hget'
    rw [hget] at hget'
    obtain rfl : b = b' := by injection hget'
    rw [hss] at hss'
    obtain rfl : keys = keys' := by injection hss'
    rw [hmiss] at hc'
    exact Bool.false_ne_true hc'
  constructor
  · exact List.all_eq_true.mpr hall
  · unfold pointShadowStatistics
    rw [List.filter_eq_self.mpr hall]

/-- Witness for C8: a batch over a visible terrain whose material only has a
"GBuffer" variant produces no draws at all. -/
theorem point_shadow_missing_variant_skipped_witness :
    ((renderPointShadow [Node.Terrain true]
        [{ shaderSet := some ["GBuffer"], instances := [{ owner := 0 }] }]).all
      fun d => d.batchIndex != 0) = true :=
  (point_shadow_missing_variant_skipped [Node.Terrain true]
    [{ shaderSet := some ["GBuffer"], instances := [{ owner := 0 }] }]
    0 { shaderSet := some ["GBuffer"], instances := [{ owner := 0 }] }
    ["GBuffer"] rfl rfl rfl).1

/-- The draws emitted for a single command satisfy the per-command draw
description, regardless of the incoming pipeline state. -/
theorem processCommand_spec (defaultRef : Nat) (viewportHeight : Int)
    (s : UiPipeState) (cmd : UiCommand) :
    uiCommandDrawsSpec cmd (processCommand defaultRef viewportHeight s cmd).2
      = true := by
  rcases hcg : cmd.clippingGeometry with _ | cg
  · simp [processCommand, uiCommandDrawsSpec, hcg]
  · simp [processCommand, uiCommandDrawsSpec, hcg, glINCR, glEQUAL]

/-- C5: For every UI draw command in the display list, `UiRenderer::render`
issues exactly one draw with the stencil test disabled when the command has
no clip geometry, and exactly two draws when it has clip geometry: first the
clip geometry with all color writes disabled and a stencil-increment
operation, then the command's triangle range with the stencil test enabled,
the stencil function set to pass only where the stencil equals 1, and stencil
writes masked off. -/
theorem ui_render_draws_per_command (defaultRef : Nat) (viewportHeight : Int)
    (s : UiPipeState) (cmds : List UiCommand) (i : Nat) (cmd : UiCommand)
    (hget : cmds.get? i = some cmd) :
    ((uiRender defaultRef viewportHeight s cmds).get? i).elim false
        (uiCommandDrawsSpec cmd) = true := by
  induction cmds generalizing s i with
  | nil => simp at hget
  | cons c rest ih =>
      cases i with
      | zero =>
          obtain rfl : c = cmd := by simpa using hget
          simpa [uiRender] using
            processCommand_spec defaultRef viewportHeight s c
      | succ n =>
          have hg : rest.get? n = some cmd := by simpa using hget
          simpa [uiRender] using
            ih (processCommand defaultRef viewportHeight s c).1 n hg

/-- Witness for C5: a one-command display list with clip geometry, checked
against the per-command draw description. -/
theorem ui_render_draws_per_command_witness :
    ((uiRender 0 100
        { zpass := 0, func := 0, refValue := 0, mask := 0
          scissor := { x := 0, y := 0, w := 0, h := 0 } }
        [{ clipBounds := { posX := 1, posY := 2, sizeX := 3, sizeY := 4 }
           clippingGeometry := some { triangleCount := 2 }
           triangleStart := 5, triangleEnd := 9 }]).get? 0).elim false
      (uiCommandDrawsSpec
        { clipBounds := { posX := 1, posY := 2, sizeX := 3, sizeY := 4 }
          clippingGeometry := some { triangleCount := 2 }
          triangleStart := 5, triangleEnd := 9 }) = true :=
  ui_render_draws_per_command 0 100
    { zpass := 0, func := 0, refValue := 0, mask := 0
      scissor := { x := 0, y := 0, w := 0, h := 0 } }
    [{ clipBounds := { posX := 1, posY := 2, sizeX := 3, sizeY := 4 }
       clippingGeometry := some { triangleCount := 2 }
       triangleStart := 5, triangleEnd := 9 }] 0
    { clipBounds := { posX := 1, posY := 2, sizeX := 3, sizeY := 4 }
      clippingGeometry := some { triangleCount := 2 }
      triangleStart := 5, triangleEnd := 9 } rfl

/-- C9 counterexample: `GpuProgram::from_source` also propagates the `?` on
`gl.create_shader` — with a device where allocating the vertex shader object
fails but every compile status and the link status are true, `from_source`
returns an error, refuting "returns an error if and only if vertex or
fragment shader compilation fails or program linking fails". -/
theorem gpu_program_alloc_failure_counterexample :
    (GpuProgram.from_source
      { vertex :=
          { alloc := Except.error "no shader object"
            compileStatus := true
            infoLog := "" }
        fragment := { alloc := Except.ok (), compileStatus := true, infoLog := "" }
        program := { alloc := Except.ok (), linkStatus := true, infoLog := "" } }
      "UIShader").isOk = false :=
  rfl

/-- C9 (amended): assuming the GL object allocations succeed,
`GpuProgram::from_source` errors exactly when vertex or fragment compilation
or linking fails; a compile failure yields `ShaderCompilationFailed` naming
the failing shader (`<name>_VertexShader` / `<name>_FragmentShader`) and
carrying the compiler's message, a link failure yields `ShaderLinkingFailed`
with the name and linker message; a failed allocation also errors; and the
error propagates to the owning renderer's construction (`UiShader::new`
fails exactly when `from_source` does). -/
theorem gpu_program_from_source_errors (dev : GlDevice) (name : String)
    (hva : dev.vertex.alloc = Except.ok ())
    (hfa : dev.fragment.alloc = Except.ok ())
    (hpa : dev.program.alloc = Except.ok ()) :
    ((GpuProgram.from_source dev name).isOk
        = (dev.vertex.compileStatus && dev.fragment.compileStatus
            && dev.program.linkStatus)) ∧
    (dev.vertex.compileStatus = false →
      GpuProgram.from_source dev name
        = Except.error (FrameworkError.ShaderCompilationFailed
            (name ++ "_VertexShader") dev.vertex.infoLog)) ∧
    (dev.vertex.compileStatus = true → dev.fragment.compileStatus = false →
      GpuProgram.from_source dev name
        = Except.error (FrameworkError.ShaderCompilationFailed
            (name ++ "_FragmentShader") dev.fragment.infoLog)) ∧
    (dev.vertex.compileStatus = true → dev.fragment.compileStatus = true →
      dev.program.linkStatus = false →
      GpuProgram.from_source dev name
        = Except.error (FrameworkError.ShaderLinkingFailed
            name dev.program.infoLog)) ∧
    (UiShader.new dev).isOk = (GpuProgram.from_source dev "UIShader").isOk := by
  rcases dev with ⟨⟨va, vc, vlog⟩, ⟨fa, fc, flog⟩, ⟨pa, pl, plog⟩⟩
  simp only at hva hfa hpa
  subst hva
  subst hfa
  subst hpa
  cases vc <;> cases fc <;> cases pl <;>
    simp [GpuProgram.from_source, create_shader, UiShader.new, Except.isOk,
      Except.toBool, Bind.bind, Except.bind, pure, Except.pure, throw,
      throwThe, MonadExceptOf.throw]

/-- Witness for C9's amended theorem: an all-successful device yields a
program (`isOk` agrees with the conjunction of the three statuses). -/
theorem gpu_program_from_source_errors_witness :
    ((GpuProgram.from_source
      { vertex := { alloc := Except.ok (), compileStatus := true, infoLog := "" }
        fragment := { alloc := Except.ok (), compileStatus := true, infoLog := "" }
        program := { alloc := Except.ok (), linkStatus := true, infoLog := "" } }
      "UIShader").isOk = (true && true && true)) :=
  (gpu_program_from_source_errors
    { vertex := { alloc := Except.ok (), compileStatus := true, infoLog := "" }
      fragment := { alloc := Except.ok (), compileStatus := true, infoLog := "" }
      program := { alloc := Except.ok (), linkStatus := true, infoLog := "" } }
    "UIShader" rfl rfl rfl).1
